import Mathlib

/-!
Verification of the wind-energy-estimator backend (src/main.py) against its
natural-language specification.

Numeric modelling: Python `float` values are idealised as exact numbers —
rationals (`ℚ`) in the location resolver, whose computations are pure string
processing and exact decimal parsing, and reals (`ℝ`) in the physics pipeline,
which uses `π` and a real-valued power `(h / 10) ** 0.14`.  Network effects are
modelled by explicit oracles: the weather provider and geocoding provider are
parameters of the embedded endpoint functions, and the redirect-following step
of the URL resolver is modelled by taking the final (post-redirect) URL as the
input.
-/

/-! ## Data model -/

/-- An HTTP error, as raised by `fastapi.HTTPException(status_code, detail)`.
The detail string is modelled as a list of characters. -/
structure HTTPError where
  status : ℕ
  detail : List Char
deriving DecidableEq, Repr

/-- The JSON object returned by the `/resolve-gmaps-url` endpoint.
`found_name` is absent (`none`) in the direct-coordinate branch. -/
structure ResolvedLocation where
  latitude : ℚ
  longitude : ℚ
  found_name : Option (List Char)
  isAreaResult : Bool
deriving DecidableEq, Repr

/-- One element of the JSON array returned by the Nominatim geocoding API:
a latitude, a longitude and an optional display name.  The numeric value a
Python `float(...)` call extracts from the provider's decimal string is
modelled directly as the rational number carried by the item. -/
structure GeoItem where
  lat : ℚ
  lon : ℚ
  display_name : Option (List Char)
deriving DecidableEq, Repr

/-! ## String scanning: the coordinate regex

`re.search(r"@(-?\d+\.\d+),(-?\d+\.\d+)", final_url)` in `resolve_gmaps_url`
is modelled by a left-to-right scanner.  Because the regex's literal
separators (`.` and `,`) can never match a digit, greedy matching with
backtracking coincides with maximal-munch digit runs, so the scanner below is
an exact model of the regex. -/

/-- Maximal run of ASCII decimal digits, required nonempty (the regex `\d+`):
returns the digits and the remaining characters. -/
def digits1 (cs : List Char) : Option (List Char × List Char) :=
  let p := cs.span (fun c => c.isDigit)
  if p.1 = [] then none else some p

/-- The regex fragment `\d+\.\d+`: digits, a literal dot, digits.  Returns the
matched characters and the rest. -/
def matchUnsignedNumber (cs : List Char) : Option (List Char × List Char) :=
  match digits1 cs with
  | none => none
  | some (d1, r1) =>
    match r1 with
    | '.' :: r2 =>
      match digits1 r2 with
      | none => none
      | some (d2, r3) => some (d1 ++ '.' :: d2, r3)
    | _ => none

/-- The regex fragment `-?\d+\.\d+` (an optional leading minus sign). -/
def matchNumber (cs : List Char) : Option (List Char × List Char) :=
  match cs with
  | '-' :: cs' =>
    match matchUnsignedNumber cs' with
    | none => none
    | some (n, r) => some ('-' :: n, r)
  | _ => matchUnsignedNumber cs

/-- Try to match `@(-?\d+\.\d+),(-?\d+\.\d+)` anchored at the head of the
list; on success return the two capture groups. -/
def matchCoordAt (cs : List Char) : Option (List Char × List Char) :=
  match cs with
  | '@' :: r0 =>
    match matchNumber r0 with
    | none => none
    | some (lat, r1) =>
      match r1 with
      | ',' :: r2 =>
        match matchNumber r2 with
        | none => none
        | some (lon, _) => some (lat, lon)
      | _ => none
  | _ => none

/-- `re.search` for the coordinate pattern: leftmost match wins. -/
def findCoordMatch : List Char → Option (List Char × List Char)
  | [] => none
  | c :: cs =>
    match matchCoordAt (c :: cs) with
    | some p => some p
    | none => findCoordMatch cs

/-! ## String scanning: the place-name regex and clean-up -/

/-- Does `p` occur at the head of `cs`? -/
def startsWith : List Char → List Char → Bool
  | [], _ => true
  | _ :: _, [] => false
  | p :: ps, c :: cs => p = c && startsWith ps cs

/-- Try to match `/place/([^/]+)` anchored at the head of the list; on
success return the capture group (the maximal nonempty run of
non-slash characters after the literal `/place/`). -/
def matchPlaceAt (cs : List Char) : Option (List Char) :=
  if startsWith "/place/".data cs then
    let seg := (cs.drop 7).takeWhile (fun c => c ≠ '/')
    if seg = [] then none else some seg
  else none

/-- `re.search` for the place pattern: leftmost match wins. -/
def findPlaceSegment : List Char → Option (List Char)
  | [] => none
  | c :: cs =>
    match matchPlaceAt (c :: cs) with
    | some seg => some seg
    | none => findPlaceSegment cs

/-- Hexadecimal digit test, as accepted by `urllib.parse.unquote`. -/
def isHexChar (c : Char) : Bool :=
  c.isDigit || ('a' ≤ c && c ≤ 'f') || ('A' ≤ c && c ≤ 'F')

/-- Value of a hexadecimal digit. -/
def hexVal (c : Char) : ℕ :=
  if c.isDigit then c.toNat - 48
  else if 'a' ≤ c && c ≤ 'f' then c.toNat - 87
  else c.toNat - 55

/-- `urllib.parse.unquote`, modelled on its single-byte (ASCII) fragment:
each valid `%XX` escape is decoded to the character with code `XX`, and an
invalid escape is kept literally, exactly as `unquote` does.  (Decoding of
multi-byte UTF-8 escape runs is not modelled; no claim depends on it.) -/
def unquoteChars : List Char → List Char
  | [] => []
  | '%' :: a :: b :: rest =>
    if isHexChar a && isHexChar b then
      Char.ofNat (16 * hexVal a + hexVal b) :: unquoteChars rest
    else '%' :: unquoteChars (a :: b :: rest)
  | c :: rest => c :: unquoteChars rest

/-- Python `str.strip()` on its ASCII-whitespace fragment. -/
def isSpaceChar (c : Char) : Bool :=
  c = ' ' || c = '\t' || c = '\n' || c = '\x0d' || c = '\x0b' || c = '\x0c'

/-- `str.strip()`: drop leading and trailing whitespace. -/
def stripChars (cs : List Char) : List Char :=
  ((cs.dropWhile isSpaceChar).reverse.dropWhile isSpaceChar).reverse

/-! ## Decimal parsing: Python `float(...)` on the matched groups

Both call sites parse strings of the shape `-?\d+\.\d+` (guaranteed by the
regex), whose exact decimal value is returned as a rational. -/

/-- Numeric value of a run of decimal digits. -/
def decDigitsVal (ds : List Char) : ℕ :=
  ds.foldl (fun n c => 10 * n + (c.toNat - 48)) 0

/-- `float(s)` for `s` of shape `\d+\.\d+`: integer part plus fractional
part scaled by the number of fractional digits. -/
def parseUnsignedFloat (cs : List Char) : ℚ :=
  let ip := cs.takeWhile (fun c => c ≠ '.')
  let fp := (cs.dropWhile (fun c => c ≠ '.')).drop 1
  (decDigitsVal ip : ℚ) + (decDigitsVal fp : ℚ) / 10 ^ fp.length

/-- `float(s)` for `s` of shape `-?\d+\.\d+`. -/
def parseFloat (cs : List Char) : ℚ :=
  match cs with
  | '-' :: rest => -(parseUnsignedFloat rest)
  | _ => parseUnsignedFloat cs

/-! ## The URL resolver (`resolve_gmaps_url`, src/main.py lines 84–144)

The redirect-following of Step 1 is network I/O; the resolver is modelled
from its result onward, taking the final landing URL as input.  The Nominatim
call of Step 4 is modelled by the oracle `geocode`, mapping the query string
to the JSON result list (`&limit=1` means the code only ever inspects
emptiness and the head). -/

/-- The clean-up applied to the captured place segment (src/main.py lines
112–114): replace `+` by a space, percent-decode, cut at the first `|`,
strip whitespace. -/
def search_name_of (seg : List Char) : List Char :=
  let raw_place_name := unquoteChars (seg.map (fun c => if c = '+' then ' ' else c))
  stripChars (raw_place_name.takeWhile (fun c => c ≠ '|'))

def resolve_gmaps_url (final_url : List Char)
    (geocode : List Char → List GeoItem) : Except HTTPError ResolvedLocation :=
  match findCoordMatch final_url with
  | some (latS, lonS) =>
    .ok { latitude := parseFloat latS, longitude := parseFloat lonS,
          found_name := none, isAreaResult := false }
  | none =>
    match findPlaceSegment final_url with
    | none => .error ⟨400, "Could not find a place name in the URL.".data⟩
    | some seg =>
      let search_name := search_name_of seg
      match geocode search_name with
      | [] =>
        .error ⟨404, "Nominatim could not find a location for '".data
                      ++ search_name ++ "'.".data⟩
      | location :: _ =>
        .ok { latitude := location.lat, longitude := location.lon,
              found_name := location.display_name, isAreaResult := false }

/-! ## Python rounding

`round(x, ndigits)` rounds half to even (banker's rounding).  Python floats
are idealised as exact reals, so a tie is the exact case `fract = 1/2`; there
`2 * round (y / 2)` picks the even neighbour, and away from ties Python agrees
with ordinary rounding. -/

/-- Python `round` to an integer: round half to even. -/
noncomputable def pythonRoundInt (y : ℝ) : ℤ :=
  if Int.fract y = 1 / 2 then 2 * round (y / 2) else round y

/-- Python `round(x, ndigits)`. -/
noncomputable def pythonRound (x : ℝ) (ndigits : ℕ) : ℝ :=
  (pythonRoundInt (x * 10 ^ ndigits) : ℝ) / 10 ^ ndigits

/-! ## The physics helpers (src/main.py lines 56–70) -/

/-- `calculate_air_density`: ideal gas law. -/
noncomputable def calculate_air_density (temp_C : ℝ) (pressure_hPa : ℝ) : ℝ :=
  let temp_K := temp_C + 273.15
  let pressure_Pa := pressure_hPa * 100
  let R_SPECIFIC := 287.05
  pressure_Pa / (R_SPECIFIC * temp_K)

/-- `adjust_wind_speed_for_height`: the wind power law, with Python's
`**` on reals modelled by `Real.rpow`. -/
noncomputable def adjust_wind_speed_for_height (v_ref : ℝ) (h : ℝ)
    (ref_height : ℝ := 10) (alpha : ℝ := 0.14) : ℝ :=
  v_ref * (h / ref_height) ^ alpha

/-- `calculate_power_output`: raw aerodynamic power through the swept area. -/
noncomputable def calculate_power_output (air_density : ℝ) (wind_speed : ℝ)
    (blade_radius : ℝ) : ℝ :=
  let swept_area := Real.pi * blade_radius ^ 2
  0.5 * air_density * swept_area * wind_speed ^ 3

/-! ## Weather acquisition (`fetch_weather`, src/main.py lines 38–54)

The `requests.get` call is modelled by an outcome oracle: a timeout, another
request failure (connection error or non-2xx status raised by
`raise_for_status`), or a successful response carrying the provider's current
temperature and wind speed. -/

/-- Outcome of the HTTP call to the weather provider. -/
inductive WeatherOutcome where
  | timeout
  | failure
  | ok (temperature : ℝ) (windspeed : ℝ)

/-- The weather dictionary built by `fetch_weather`; pressure is always the
standard-atmosphere constant. -/
structure WeatherObservation where
  temperature_C : ℝ
  wind_speed_mps : ℝ
  pressure_hPa : ℝ

/-- `fetch_weather`: returns the observation on success, raises 408 on a
timeout and 503 on any other request failure. -/
noncomputable def fetch_weather (outcome : WeatherOutcome) :
    Except HTTPError WeatherObservation :=
  match outcome with
  | .ok t w =>
    .ok { temperature_C := t, wind_speed_mps := w, pressure_hPa := 1013.25 }
  | .timeout =>
    .error ⟨408, "Request to weather service timed out.".data⟩
  | .failure =>
    .error ⟨503, "Weather service is currently unavailable.".data⟩

/-! ## The estimation endpoints (src/main.py lines 155–186) -/

/-- Request body of `/estimate`, and one element of `/compare`'s list. -/
structure WindRequest where
  latitude : ℝ
  longitude : ℝ
  blade_radius : ℝ
  turbine_height : ℝ

/-- Request body of `/compare`. -/
structure CompareRequest where
  locations : List WindRequest

/-- The `location_input` sub-object of a result. -/
structure LocationInput where
  latitude : ℝ
  longitude : ℝ

/-- The JSON object built by `/estimate` and by each `/compare` entry. -/
structure EstimationResult where
  location_input : LocationInput
  weather : WeatherObservation
  air_density_kg_m3 : ℝ
  adjusted_wind_speed_mps : ℝ
  estimated_power_W : ℝ

/-- `estimate_power` (the `/estimate` endpoint), with the weather provider
modelled by the oracle `net` from coordinates to call outcome. -/
noncomputable def estimate_power (req : WindRequest)
    (net : ℝ → ℝ → WeatherOutcome) : Except HTTPError EstimationResult :=
  match fetch_weather (net req.latitude req.longitude) with
  | .error e => .error e
  | .ok weather =>
    let air_density := calculate_air_density weather.temperature_C weather.pressure_hPa
    let adjusted_speed := adjust_wind_speed_for_height weather.wind_speed_mps req.turbine_height
    let power := calculate_power_output air_density adjusted_speed req.blade_radius
    .ok { location_input := ⟨req.latitude, req.longitude⟩,
          weather := weather,
          air_density_kg_m3 := pythonRound air_density 3,
          adjusted_wind_speed_mps := pythonRound adjusted_speed 2,
          estimated_power_W := pythonRound power 2 }

/-- The `for loc in req.locations[:2]` loop body of `compare_power`,
transcribed separately from `estimate_power` (the source duplicates the four
computation lines rather than calling the other endpoint).  An exception in
any iteration aborts the whole request. -/
noncomputable def comparePass (locs : List WindRequest)
    (net : ℝ → ℝ → WeatherOutcome) : Except HTTPError (List EstimationResult) :=
  match locs with
  | [] => .ok []
  | loc :: rest =>
    match fetch_weather (net loc.latitude loc.longitude) with
    | .error e => .error e
    | .ok weather =>
      let air_density := calculate_air_density weather.temperature_C weather.pressure_hPa
      let adjusted_speed := adjust_wind_speed_for_height weather.wind_speed_mps loc.turbine_height
      let power := calculate_power_output air_density adjusted_speed loc.blade_radius
      match comparePass rest net with
      | .error e => .error e
      | .ok results =>
        .ok ({ location_input := ⟨loc.latitude, loc.longitude⟩,
               weather := weather,
               air_density_kg_m3 := pythonRound air_density 3,
               adjusted_wind_speed_mps := pythonRound adjusted_speed 2,
               estimated_power_W := pythonRound power 2 } :: results)

/-- `compare_power` (the `/compare` endpoint): the loop over the first two
locations. -/
noncomputable def compare_power (req : CompareRequest)
    (net : ℝ → ℝ → WeatherOutcome) : Except HTTPError (List EstimationResult) :=
  comparePass (req.locations.take 2) net

/-! ## Helper lemmas and proof-layer abbreviations -/

/-- The response object built for one location from its weather observation —
the shape shared by the body of `/estimate` and each iteration of `/compare`
(the source duplicates these lines at both sites; the endpoint embeddings
above keep the duplication, and this abbreviation is used only in
statements and proofs). -/
noncomputable def entryResult (loc : WindRequest) (weather : WeatherObservation) :
    EstimationResult :=
  let air_density := calculate_air_density weather.temperature_C weather.pressure_hPa
  let adjusted_speed := adjust_wind_speed_for_height weather.wind_speed_mps loc.turbine_height
  let power := calculate_power_output air_density adjusted_speed loc.blade_radius
  { location_input := ⟨loc.latitude, loc.longitude⟩,
    weather := weather,
    air_density_kg_m3 := pythonRound air_density 3,
    adjusted_wind_speed_mps := pythonRound adjusted_speed 2,
    estimated_power_W := pythonRound power 2 }

lemma estimate_power_ok (loc : WindRequest) (net : ℝ → ℝ → WeatherOutcome)
    (w : WeatherObservation)
    (h : fetch_weather (net loc.latitude loc.longitude) = .ok w) :
    estimate_power loc net = .ok (entryResult loc w) := by
  unfold estimate_power
  rw [h]
  rfl

lemma comparePass_nil (net : ℝ → ℝ → WeatherOutcome) : comparePass [] net = .ok [] := rfl

lemma comparePass_cons_ok (loc : WindRequest) (rest : List WindRequest)
    (net : ℝ → ℝ → WeatherOutcome) (w : WeatherObservation)
    (results : List EstimationResult)
    (h : fetch_weather (net loc.latitude loc.longitude) = .ok w)
    (hrest : comparePass rest net = .ok results) :
    comparePass (loc :: rest) net = .ok (entryResult loc w :: results) := by
  unfold comparePass
  rw [h]
  rw [hrest]
  rfl

/-! ## Claims about the physics helpers -/

/-- C2: for every temperature with `temp_C + 273.15 > 0` and every positive
pressure, `calculate_air_density` equals `(pressure_hPa * 100) /
(287.05 * (temp_C + 273.15))` and is strictly positive; at 15 °C and
1013.25 hPa it is within 0.001 of 1.225 kg/m³. -/
theorem air_density_formula_positive (temp_C pressure_hPa : ℝ)
    (ht : 0 < temp_C + 273.15) (hp : 0 < pressure_hPa) :
    calculate_air_density temp_C pressure_hPa
        = pressure_hPa * 100 / (287.05 * (temp_C + 273.15)) ∧
    0 < calculate_air_density temp_C pressure_hPa ∧
    |calculate_air_density 15 1013.25 - 1.225| < 0.001 := by
  refine ⟨rfl, ?_, ?_⟩
  · exact div_pos (mul_pos hp (by norm_num)) (mul_pos (by norm_num) ht)
  · rw [show calculate_air_density 15 1013.25
        = 1013.25 * 100 / (287.05 * (15 + 273.15)) from rfl, abs_lt]
    constructor <;> norm_num

/-- Closed instance of `air_density_formula_positive` at 15 °C, 1013.25 hPa. -/
theorem air_density_formula_positive_witness :
    calculate_air_density 15 1013.25 = 1013.25 * 100 / (287.05 * (15 + 273.15)) ∧
    0 < calculate_air_density 15 1013.25 ∧
    |calculate_air_density 15 1013.25 - 1.225| < 0.001 :=
  air_density_formula_positive 15 1013.25 (by norm_num) (by norm_num)

/-- C4: `calculate_power_output` scales as the cube of the wind speed —
doubling the wind speed multiplies the output by exactly 8, for every
density, radius and speed. -/
theorem power_output_cubic_in_wind_speed (air_density wind_speed blade_radius : ℝ) :
    calculate_power_output air_density (2 * wind_speed) blade_radius
      = 8 * calculate_power_output air_density wind_speed blade_radius := by
  unfold calculate_power_output
  ring

/-- C8: when the weather-provider call times out `fetch_weather` raises the
timeout-specific 408 error, on any other request failure it raises the 503
service-unavailable error, and in neither case does it return a
`WeatherObservation`. -/
theorem fetch_weather_failure_errors (o : WeatherOutcome)
    (h : o = .timeout ∨ o = .failure) :
    (o = .timeout →
      fetch_weather o = .error ⟨408, "Request to weather service timed out.".data⟩) ∧
    (o = .failure →
      fetch_weather o = .error ⟨503, "Weather service is currently unavailable.".data⟩) ∧
    ∀ w, fetch_weather o ≠ .ok w := by
  rcases h with h | h <;> subst h
  · refine ⟨fun _ => rfl, fun hc => ?_, fun w hw => ?_⟩
    · cases hc
    · cases hw
  · refine ⟨fun hc => ?_, fun _ => rfl, fun w hw => ?_⟩
    · cases hc
    · cases hw

/-- Closed instance of `fetch_weather_failure_errors` at a timeout outcome. -/
theorem fetch_weather_failure_errors_witness :
    fetch_weather .timeout
      = .error ⟨408, "Request to weather service timed out.".data⟩ :=
  (fetch_weather_failure_errors .timeout (Or.inl rfl)).1 rfl

/-- C3: for a fixed positive reference wind speed, the height-adjusted wind
speed (reference height 10, shear exponent 0.14) is strictly increasing in
the height above 10 m; below 10 m it stays strictly below the reference
speed while strictly increasing toward it, and at exactly 10 m it equals
the reference speed. -/
theorem adjusted_wind_speed_monotone (v a b c d : ℝ) (hv : 0 < v)
    (ha : 10 < a) (hab : a < b) (hc : 0 < c) (hcd : c < d) (hd : d < 10) :
    adjust_wind_speed_for_height v a < adjust_wind_speed_for_height v b ∧
    adjust_wind_speed_for_height v c < v ∧
    adjust_wind_speed_for_height v c < adjust_wind_speed_for_height v d ∧
    adjust_wind_speed_for_height v 10 = v := by
  unfold adjust_wind_speed_for_height
  refine ⟨?_, ?_, ?_, ?_⟩
  · apply mul_lt_mul_of_pos_left _ hv
    apply Real.rpow_lt_rpow (by positivity) _ (by norm_num)
    exact (div_lt_div_iff_of_pos_right (by norm_num)).mpr hab
  · have h1 : (c / 10 : ℝ) ^ (0.14 : ℝ) < 1 :=
      Real.rpow_lt_one (by positivity)
        ((div_lt_one (by norm_num)).mpr (hcd.trans hd)) (by norm_num)
    calc v * (c / 10 : ℝ) ^ (0.14 : ℝ) < v * 1 := mul_lt_mul_of_pos_left h1 hv
    _ = v := mul_one v
  · apply mul_lt_mul_of_pos_left _ hv
    apply Real.rpow_lt_rpow (by positivity) _ (by norm_num)
    exact (div_lt_div_iff_of_pos_right (by norm_num)).mpr hcd
  · rw [show ((10 : ℝ) / 10) = 1 by norm_num, Real.one_rpow, mul_one]

/-- Closed instance of `adjusted_wind_speed_monotone` at reference speed 5
and heights 11 < 12 above and 2 < 3 below the 10 m reference. -/
theorem adjusted_wind_speed_monotone_witness :
    adjust_wind_speed_for_height 5 11 < adjust_wind_speed_for_height 5 12 ∧
    adjust_wind_speed_for_height 5 2 < 5 ∧
    adjust_wind_speed_for_height 5 2 < adjust_wind_speed_for_height 5 3 ∧
    adjust_wind_speed_for_height 5 10 = 5 :=
  adjusted_wind_speed_monotone 5 11 12 2 3 (by norm_num) (by norm_num)
    (by norm_num) (by norm_num) (by norm_num) (by norm_num)

/-! ## Claims about the estimation endpoints -/

/-- C1: on a successful weather fetch, `/estimate` computes the air density
from the observed temperature and the constant pressure, the height-adjusted
wind speed from the observed wind speed and the turbine height, and the power
from the *unrounded* density, *unrounded* adjusted speed and blade radius;
the response carries the density rounded to 3 decimal places and the
adjusted speed and power rounded to 2, while rounding never feeds back into
a later stage. -/
theorem estimate_power_pipeline_rounding (req : WindRequest)
    (net : ℝ → ℝ → WeatherOutcome) (t w : ℝ)
    (h : net req.latitude req.longitude = .ok t w) :
    estimate_power req net = .ok
      { location_input := ⟨req.latitude, req.longitude⟩,
        weather := ⟨t, w, 1013.25⟩,
        air_density_kg_m3 := pythonRound (calculate_air_density t 1013.25) 3,
        adjusted_wind_speed_mps :=
          pythonRound (adjust_wind_speed_for_height w req.turbine_height) 2,
        estimated_power_W := pythonRound (calculate_power_output
          (calculate_air_density t 1013.25)
          (adjust_wind_speed_for_height w req.turbine_height) req.blade_radius) 2 } := by
  unfold estimate_power fetch_weather
  rw [h]

/-- Closed instance of `estimate_power_pipeline_rounding` at a concrete
request and a provider reporting 15 °C and 8 m/s. -/
theorem estimate_power_pipeline_rounding_witness :
    estimate_power ⟨37, -122, 5, 20⟩ (fun _ _ => .ok 15 8) = .ok
      { location_input := ⟨37, -122⟩,
        weather := ⟨15, 8, 1013.25⟩,
        air_density_kg_m3 := pythonRound (calculate_air_density 15 1013.25) 3,
        adjusted_wind_speed_mps := pythonRound (adjust_wind_speed_for_height 8 20) 2,
        estimated_power_W := pythonRound (calculate_power_output
          (calculate_air_density 15 1013.25)
          (adjust_wind_speed_for_height 8 20) 5) 2 } :=
  estimate_power_pipeline_rounding ⟨37, -122, 5, 20⟩ (fun _ _ => .ok 15 8) 15 8 rfl

lemma estimate_power_err (loc : WindRequest) (net : ℝ → ℝ → WeatherOutcome)
    (e : HTTPError) (h : fetch_weather (net loc.latitude loc.longitude) = .error e) :
    estimate_power loc net = .error e := by
  unfold estimate_power
  rw [h]

lemma comparePass_cons_err (loc : WindRequest) (rest : List WindRequest)
    (net : ℝ → ℝ → WeatherOutcome) (e : HTTPError)
    (h : fetch_weather (net loc.latitude loc.longitude) = .error e) :
    comparePass (loc :: rest) net = .error e := by
  unfold comparePass
  rw [h]

lemma comparePass_cons_tail_err (loc : WindRequest) (rest : List WindRequest)
    (net : ℝ → ℝ → WeatherOutcome) (w : WeatherObservation) (e : HTTPError)
    (h : fetch_weather (net loc.latitude loc.longitude) = .ok w)
    (hrest : comparePass rest net = .error e) :
    comparePass (loc :: rest) net = .error e := by
  unfold comparePass
  rw [h, hrest]

lemma comparePass_eq_mapM (locs : List WindRequest) (net : ℝ → ℝ → WeatherOutcome) :
    comparePass locs net = locs.mapM (fun loc => estimate_power loc net) := by
  induction locs with
  | nil => rfl
  | cons l rest ih =>
    rw [List.mapM_cons, ← ih]
    cases hf : fetch_weather (net l.latitude l.longitude) with
    | error e =>
      rw [comparePass_cons_err l rest net e hf, estimate_power_err l net e hf]
      rfl
    | ok w =>
      rw [estimate_power_ok l net w hf]
      cases hrest : comparePass rest net with
      | error e =>
        rw [comparePass_cons_tail_err l rest net w e hf hrest]
        rfl
      | ok rs =>
        rw [comparePass_cons_ok l rest net w rs hf hrest]
        rfl

/-- C9: a `/compare` request with three (or more) locations is answered from
the first two alone — the response is the same as for the two-element
request, and on successful weather fetches for those two it is the ordered
two-element array whose entries are exactly what `/estimate` would return
for the first and second location respectively. -/
theorem compare_three_locations_first_two (l1 l2 l3 : WindRequest)
    (rest : List WindRequest) (net : ℝ → ℝ → WeatherOutcome)
    (w1 w2 : WeatherObservation)
    (h1 : fetch_weather (net l1.latitude l1.longitude) = .ok w1)
    (h2 : fetch_weather (net l2.latitude l2.longitude) = .ok w2) :
    compare_power ⟨l1 :: l2 :: l3 :: rest⟩ net = compare_power ⟨[l1, l2]⟩ net ∧
    compare_power ⟨l1 :: l2 :: l3 :: rest⟩ net
      = .ok [entryResult l1 w1, entryResult l2 w2] ∧
    estimate_power l1 net = .ok (entryResult l1 w1) ∧
    estimate_power l2 net = .ok (entryResult l2 w2) := by
  have hmain : compare_power ⟨l1 :: l2 :: l3 :: rest⟩ net
      = .ok [entryResult l1 w1, entryResult l2 w2] := by
    show comparePass [l1, l2] net = _
    rw [comparePass_cons_ok l1 [l2] net w1 [entryResult l2 w2] h1
      (comparePass_cons_ok l2 [] net w2 [] h2 (comparePass_nil net))]
  exact ⟨rfl, hmain, estimate_power_ok l1 net w1 h1, estimate_power_ok l2 net w2 h2⟩

/-- Closed instance of `compare_three_locations_first_two` for a concrete
three-location request against a provider reporting 15 °C and 8 m/s. -/
theorem compare_three_locations_first_two_witness :
    compare_power ⟨[⟨1, 2, 3, 4⟩, ⟨5, 6, 7, 8⟩, ⟨9, 10, 11, 12⟩]⟩
        (fun _ _ => .ok 15 8)
      = compare_power ⟨[⟨1, 2, 3, 4⟩, ⟨5, 6, 7, 8⟩]⟩ (fun _ _ => .ok 15 8) ∧
    compare_power ⟨[⟨1, 2, 3, 4⟩, ⟨5, 6, 7, 8⟩, ⟨9, 10, 11, 12⟩]⟩
        (fun _ _ => .ok 15 8)
      = .ok [entryResult ⟨1, 2, 3, 4⟩ ⟨15, 8, 1013.25⟩,
             entryResult ⟨5, 6, 7, 8⟩ ⟨15, 8, 1013.25⟩] :=
  ⟨(compare_three_locations_first_two ⟨1, 2, 3, 4⟩ ⟨5, 6, 7, 8⟩ ⟨9, 10, 11, 12⟩ []
      (fun _ _ => .ok 15 8) ⟨15, 8, 1013.25⟩ ⟨15, 8, 1013.25⟩ rfl rfl).1,
   (compare_three_locations_first_two ⟨1, 2, 3, 4⟩ ⟨5, 6, 7, 8⟩ ⟨9, 10, 11, 12⟩ []
      (fun _ _ => .ok 15 8) ⟨15, 8, 1013.25⟩ ⟨15, 8, 1013.25⟩ rfl rfl).2.1⟩

/-- C10: `/compare` refines `/estimate` — against the same weather oracle,
comparing is exactly mapping the single-location estimate over the first two
locations; in particular every processed entry's result object equals the
`/estimate` result for the same request, and an empty or one-element
locations list yields an array of that length, not an error. -/
theorem compare_refines_estimate (locs : List WindRequest) (loc : WindRequest)
    (net : ℝ → ℝ → WeatherOutcome) (t w : ℝ) :
    compare_power ⟨locs⟩ net = (locs.take 2).mapM (fun l => estimate_power l net) ∧
    compare_power ⟨[]⟩ net = .ok [] ∧
    compare_power ⟨[loc]⟩ net = (estimate_power loc net).map (fun r => [r]) ∧
    ∃ r, compare_power ⟨[loc]⟩ (fun _ _ => .ok t w) = .ok [r] ∧
         estimate_power loc (fun _ _ => .ok t w) = .ok r := by
  refine ⟨comparePass_eq_mapM (locs.take 2) net, rfl, ?_, ?_⟩
  · show comparePass [loc] net = _
    cases hf : fetch_weather (net loc.latitude loc.longitude) with
    | error e =>
      rw [comparePass_cons_err loc [] net e hf, estimate_power_err loc net e hf]
      rfl
    | ok w' =>
      rw [comparePass_cons_ok loc [] net w' [] hf (comparePass_nil net),
        estimate_power_ok loc net w' hf]
      rfl
  · refine ⟨entryResult loc ⟨t, w, 1013.25⟩, ?_, ?_⟩
    · show comparePass [loc] _ = _
      rw [comparePass_cons_ok loc [] (fun _ _ => .ok t w) ⟨t, w, 1013.25⟩ [] rfl
        (comparePass_nil _)]
    · exact estimate_power_ok loc (fun _ _ => .ok t w) ⟨t, w, 1013.25⟩ rfl

/-! ## Claims about the URL resolver -/

/-- C5 (amended): when the final URL contains an embedded `@lat,lon`
coordinate marker, the resolver succeeds with exactly the two captured
numbers, `found_name` absent and `is_area_result = false`, and the outcome is
independent of the geocoding provider (no geocoding call is consulted).
The `!3dlat!4dlon` marker named by the spec is not handled by the code — see
the counterexample `resolver_3d4d_marker_not_extracted`. -/
theorem resolver_coord_marker (url : List Char) (g g' : List Char → List GeoItem)
    (latS lonS : List Char) (h : findCoordMatch url = some (latS, lonS)) :
    resolve_gmaps_url url g =
      .ok { latitude := parseFloat latS, longitude := parseFloat lonS,
            found_name := none, isAreaResult := false } ∧
    resolve_gmaps_url url g = resolve_gmaps_url url g' := by
  unfold resolve_gmaps_url
  rw [h]
  exact ⟨rfl, rfl⟩

/-- Closed instance of `resolver_coord_marker`: the spec's round-trip example
URL containing `@37.7749,-122.4194` resolves to exactly that coordinate with
`is_area_result = false`, for any geocoding provider. -/
theorem resolver_coord_marker_witness :
    resolve_gmaps_url "https://www.google.com/maps/@37.7749,-122.4194,12z".data
        (fun _ => [])
      = .ok { latitude := 37.7749, longitude := -122.4194,
              found_name := none, isAreaResult := false } ∧
    resolve_gmaps_url "https://www.google.com/maps/@37.7749,-122.4194,12z".data
        (fun _ => [])
      = resolve_gmaps_url "https://www.google.com/maps/@37.7749,-122.4194,12z".data
          (fun _ => [⟨0, 0, none⟩]) := by
  have h := resolver_coord_marker
    "https://www.google.com/maps/@37.7749,-122.4194,12z".data
    (fun _ => []) (fun _ => [⟨0, 0, none⟩])
    "37.7749".data "-122.4194".data (by decide)
  have h37 : parseFloat "37.7749".data = 37.7749 := by
    show parseUnsignedFloat "37.7749".data = 37.7749
    simp only [parseUnsignedFloat]
    rw [show ("37.7749".data.takeWhile (fun c => c ≠ '.')) = "37".data by decide]
    rw [show (("37.7749".data.dropWhile (fun c => c ≠ '.')).drop 1) = "7749".data by decide]
    rw [show decDigitsVal "37".data = 37 by decide]
    rw [show decDigitsVal "7749".data = 7749 by decide]
    rw [show ("7749".data).length = 4 by decide]
    norm_num
  have h122 : parseFloat "-122.4194".data = -122.4194 := by
    have hu : parseUnsignedFloat "122.4194".data = 122.4194 := by
      simp only [parseUnsignedFloat]
      rw [show ("122.4194".data.takeWhile (fun c => c ≠ '.')) = "122".data by decide]
      rw [show (("122.4194".data.dropWhile (fun c => c ≠ '.')).drop 1) = "4194".data by decide]
      rw [show decDigitsVal "122".data = 122 by decide]
      rw [show decDigitsVal "4194".data = 4194 by decide]
      rw [show ("4194".data).length = 4 by decide]
      norm_num
    show -(parseUnsignedFloat "122.4194".data) = -122.4194
    rw [hu]
  refine ⟨?_, h.2⟩
  rw [h.1, h37, h122]

/-- C5 counterexample: a final URL carrying only the internal
`!3d37.7749!4d-122.4194` coordinate marker (no `@lat,lon`, no place segment)
is NOT resolved to that coordinate — the code only scans for the `@` pattern,
so the request fails with the 400 "no place name" error, contradicting the
claim that the `!3dlat!4dlon` marker also yields terminal success. -/
theorem resolver_3d4d_marker_not_extracted :
    resolve_gmaps_url "https://www.google.com/maps!3d37.7749!4d-122.4194".data
        (fun _ => []) = .error ⟨400, "Could not find a place name in the URL.".data⟩ ∧
    resolve_gmaps_url "https://www.google.com/maps!3d37.7749!4d-122.4194".data
        (fun _ => [])
      ≠ .ok { latitude := 37.7749, longitude := -122.4194,
              found_name := none, isAreaResult := false } := by
  have hm : findCoordMatch "https://www.google.com/maps!3d37.7749!4d-122.4194".data
      = none := by decide
  have hp : findPlaceSegment "https://www.google.com/maps!3d37.7749!4d-122.4194".data
      = none := by decide
  refine ⟨?_, ?_⟩ <;> simp [resolve_gmaps_url, hm, hp]

/-- C6: when no coordinate marker is found, a place segment is extracted, and
the geocoding provider returns the empty result list for the cleaned-up
name, the resolver fails with the 404 NotFound error and returns no
location. -/
theorem resolver_empty_geocode_not_found (url : List Char)
    (g : List Char → List GeoItem) (seg : List Char)
    (h1 : findCoordMatch url = none) (h2 : findPlaceSegment url = some seg)
    (h3 : g (search_name_of seg) = []) :
    resolve_gmaps_url url g =
      .error ⟨404, "Nominatim could not find a location for '".data
                    ++ search_name_of seg ++ "'.".data⟩ := by
  unfold resolve_gmaps_url
  rw [h1, h2]
  simp [h3]

/-- Closed instance of `resolver_empty_geocode_not_found`: a place URL whose
name the provider cannot resolve yields the 404 error. -/
theorem resolver_empty_geocode_not_found_witness :
    resolve_gmaps_url "https://www.google.com/maps/place/Atlantis".data (fun _ => [])
      = .error ⟨404, "Nominatim could not find a location for 'Atlantis'.".data⟩ := by
  have h := resolver_empty_geocode_not_found
    "https://www.google.com/maps/place/Atlantis".data
    (fun _ => []) "Atlantis".data (by decide) (by decide) rfl
  rw [h]
  exact congrArg Except.error (by decide)

/-- C7 (amended): the `is_area_result` flag of every successful resolution is
the constant `false` — the geocode branch hardcodes it (the source comments
"Nominatim is good enough to give us a point"), so the flag does not reflect
whether the match is a precise point or a broader named area. -/
theorem resolver_is_area_always_false (url : List Char)
    (g : List Char → List GeoItem) (r : ResolvedLocation)
    (h : resolve_gmaps_url url g = .ok r) :
    r.isAreaResult = false := by
  unfold resolve_gmaps_url at h
  cases hc : findCoordMatch url with
  | some p =>
    obtain ⟨latS, lonS⟩ := p
    simp only [hc, Except.ok.injEq] at h
    rw [← h]
  | none =>
    simp only [hc] at h
    cases hp : findPlaceSegment url with
    | none =>
      simp only [hp] at h
      exact Except.noConfusion h
    | some seg =>
      simp only [hp] at h
      cases hg : g (search_name_of seg) with
      | nil =>
        simp only [hg] at h
        exact Except.noConfusion h
      | cons item rest =>
        simp only [hg, Except.ok.injEq] at h
        rw [← h]

/-- Closed instance of `resolver_is_area_always_false` at a geocode-stage
success. -/
theorem resolver_is_area_always_false_witness :
    (⟨1.5, 2.5, none, false⟩ : ResolvedLocation).isAreaResult = false := by
  have hm : findCoordMatch "https://maps.example.com/place/X".data = none := by decide
  have hp : findPlaceSegment "https://maps.example.com/place/X".data
      = some "X".data := by decide
  exact resolver_is_area_always_false "https://maps.example.com/place/X".data
    (fun _ => [⟨1.5, 2.5, none⟩]) ⟨1.5, 2.5, none, false⟩
    (by simp [resolve_gmaps_url, hm, hp])

/-- C7 counterexample: the flag is the same constant for both kinds of match.
A full street-address match and a broader city-level match both come back
with `is_area_result = false`, so the flag does not distinguish a precise
point from an area centroid as the claim states. -/
theorem resolver_is_area_constant_for_both_kinds :
    resolve_gmaps_url
        "https://www.google.com/maps/place/123+Main+St,+Springfield,+IL".data
        (fun _ => [⟨39.7817, -89.6501,
          some "123 Main St, Springfield, Sangamon County, Illinois, USA".data⟩])
      = .ok ⟨39.7817, -89.6501,
          some "123 Main St, Springfield, Sangamon County, Illinois, USA".data, false⟩ ∧
    resolve_gmaps_url "https://www.google.com/maps/place/Springfield,+IL".data
        (fun _ => [⟨39.799, -89.644,
          some "Springfield, Sangamon County, Illinois, USA".data⟩])
      = .ok ⟨39.799, -89.644,
          some "Springfield, Sangamon County, Illinois, USA".data, false⟩ := by
  constructor
  · have hm : findCoordMatch
        "https://www.google.com/maps/place/123+Main+St,+Springfield,+IL".data
        = none := by decide
    have hp : findPlaceSegment
        "https://www.google.com/maps/place/123+Main+St,+Springfield,+IL".data
        = some "123+Main+St,+Springfield,+IL".data := by decide
    simp [resolve_gmaps_url, hm, hp]
  · have hm : findCoordMatch "https://www.google.com/maps/place/Springfield,+IL".data
        = none := by decide
    have hp : findPlaceSegment "https://www.google.com/maps/place/Springfield,+IL".data
        = some "Springfield,+IL".data := by decide
    simp [resolve_gmaps_url, hm, hp]
